import Mathlib

/-!
Shallow embedding of the MatTailor AI backend orchestration layer
(`backend/main.py` and `backend/services/spark.py`).

Collaborator services (NLP processor, recommender, property simulator,
RL planner) are unshown stubs in the repository; they are modelled as
function-valued environment fields returning `Except String α`, where
`.error msg` models the collaborator raising a Python exception whose
message is `msg`.  A route handler returns `Except HTTPError α`, where
`HTTPError.httpException status detail` models FastAPI's
`HTTPException(status_code=status, detail=detail)`.
-/

/-- Models FastAPI `HTTPException(status_code, detail)`. -/
inductive HTTPError where
  | httpException (status : Nat) (detail : String)
deriving DecidableEq, Repr

/-- Models `models.material.Material` as used by `main.py`: an identifier,
intrinsic database properties, and the `simulated_properties` attribute that
`recommend_materials` assigns in its per-candidate loop. -/
structure Material where
  id : String
  properties : List (String × Int)
  simulated_properties : Option (List (String × Int))
deriving DecidableEq, Repr

/-- Models `models.material.RecommendationResult`: the ordered candidate list. -/
structure RecommendationResult where
  materials : List Material
deriving DecidableEq, Repr

/-- Models `models.material.MaterialQuery` as used by `main.py`: an optional
free-text field and the structured requirement fields. -/
structure MaterialQuery where
  natural_language_query : Option String
  requirements : List (String × Int)
deriving DecidableEq, Repr

/-- Python truthiness of an `Optional[str]` value: `None` and the empty
string are falsy (`if query.natural_language_query:` in `main.py`). -/
def pyTruthyStr : Option String → Bool
  | none => false
  | some s => s ≠ ""

/-- The collaborator services used by the `/recommend` route:
`nlp_processor.process_query`, `recommender.recommend`,
`simulator.simulate_properties`. -/
structure RecommendEnv where
  process_query : MaterialQuery → Except String MaterialQuery
  recommend : MaterialQuery → Except String RecommendationResult
  simulate_properties : Material → List (String × Int) → Except String (List (String × Int))

/-- The conditional enhancement stage of `recommend_materials`
(`if query.natural_language_query: query = await nlp_processor.process_query(...)`). -/
def enhanceStage (env : RecommendEnv) (query : MaterialQuery) :
    Except String MaterialQuery :=
  if pyTruthyStr query.natural_language_query then env.process_query query
  else .ok query

/-- The per-candidate simulation loop of `recommend_materials`
(`for material in recommendations.materials: material.simulated_properties = ...`).
The first collaborator exception aborts the loop and propagates. -/
def simulateAll (env : RecommendEnv) (req : List (String × Int)) :
    List Material → Except String (List Material)
  | [] => .ok []
  | m :: ms =>
    match env.simulate_properties m req with
    | .error e => .error e
    | .ok p =>
      match simulateAll env req ms with
      | .error e => .error e
      | .ok rest => .ok ({ m with simulated_properties := some p } :: rest)

/-- The body of the `try:` block in `recommend_materials`: enhancement,
recommendation, then the simulation loop; the first exception propagates. -/
def recommendStep (env : RecommendEnv) (query : MaterialQuery) :
    Except String RecommendationResult :=
  match enhanceStage env query with
  | .error e => .error e
  | .ok enhanced =>
    match env.recommend enhanced with
    | .error e => .error e
    | .ok recs =>
      match simulateAll env enhanced.requirements recs.materials with
      | .error e => .error e
      | .ok mats => .ok { recs with materials := mats }

/-- Models the `/recommend` handler `recommend_materials` of `main.py`:
any exception escaping the `try:` block becomes
`HTTPException(500, "Recommendation service temporarily unavailable")`. -/
def recommend_materials (env : RecommendEnv) (query : MaterialQuery) :
    Except HTTPError RecommendationResult :=
  match recommendStep env query with
  | .ok r => .ok r
  | .error _ =>
    .error (.httpException 500 "Recommendation service temporarily unavailable")

example :
    recommend_materials
      { process_query := fun q => .ok q,
        recommend := fun _ => .ok ⟨[⟨"A", [], none⟩]⟩,
        simulate_properties := fun _ _ => .ok [("d", 1)] }
      ⟨none, [("t", 200)]⟩ =
    .ok ⟨[⟨"A", [], some [("d", 1)]⟩]⟩ := rfl

/-- Models `models.tradeoff.TradeoffAnalysis` as an opaque-to-the-handler
payload: a matrix of (material id, criterion, score) rows plus a ranking.
The handler returns it unchanged, so its exact shape is irrelevant. -/
structure TradeoffAnalysis where
  matrix : List (String × String × Int)
  ranking : List String
deriving DecidableEq, Repr

/-- The collaborator used by the `/tradeoff` route:
`simulator.analyze_tradeoffs`. -/
structure TradeoffEnv where
  analyze_tradeoffs : List String → List String → Except String TradeoffAnalysis

/-- Models the `/tradeoff` handler `analyze_tradeoffs` of `main.py`: the
material ids and criteria are passed to the simulator with no validation,
and any exception becomes
`HTTPException(500, "Trade-off analysis service temporarily unavailable")`. -/
def analyze_tradeoffs (env : TradeoffEnv)
    (material_ids : List String) (criteria : List String) :
    Except HTTPError TradeoffAnalysis :=
  match env.analyze_tradeoffs material_ids criteria with
  | .ok a => .ok a
  | .error _ =>
    .error (.httpException 500 "Trade-off analysis service temporarily unavailable")

/-- The collaborator used by the `/materials/{material_id}` route:
`recommender.get_material_by_id`.  `.ok none` models the lookup completing
and returning a falsy value (`if not material:`), `.error msg` models the
lookup itself raising. -/
structure LookupEnv where
  get_material_by_id : String → Except String (Option Material)

/-- Models the `/materials/{material_id}` handler `get_material_details` of
`main.py`: a completed lookup with no material raises
`HTTPException(404, "Material not found")`, which the
`except HTTPException: raise` clause re-raises unchanged; any other
exception becomes
`HTTPException(500, "Material retrieval service temporarily unavailable")`. -/
def get_material_details (env : LookupEnv) (material_id : String) :
    Except HTTPError Material :=
  match env.get_material_by_id material_id with
  | .error _ =>
    .error (.httpException 500 "Material retrieval service temporarily unavailable")
  | .ok none => .error (.httpException 404 "Material not found")
  | .ok (some m) => .ok m

/-- A background task enqueued via `background_tasks.add_task` in
`plan_with_rl`: the planner callable together with the arguments it will
be invoked with after the response is sent.  `Planner` is the type of
`rl_planner.train_and_recommend`, never invoked by the handler itself. -/
structure PlanTask (Planner : Type) where
  planner : Planner
  objectives : List String
  constraints : List (String × String)

/-- The acknowledgment body returned by `/plan_rl`. -/
structure PlanResponse where
  status : String
  message : String
  estimated_completion : String
deriving DecidableEq, Repr

/-- Models the `/plan_rl` handler `plan_with_rl` of `main.py`: it appends
exactly one task (the planner with its arguments) to the `BackgroundTasks`
queue and immediately returns the fixed acceptance body; the planner is
not called inside the handler. -/
def plan_with_rl {Planner : Type} (rl_planner : Planner)
    (objectives : List String) (constraints : List (String × String))
    (background_tasks : List (PlanTask Planner)) :
    List (PlanTask Planner) × Except HTTPError PlanResponse :=
  (background_tasks ++ [⟨rl_planner, objectives, constraints⟩],
   .ok { status := "initiated",
         message := "RL planning started in background",
         estimated_completion := "2-5 minutes" })

/-- The underlying OpenAI call made by `SparkClient.llm`
(`services/spark.py`).  For `stream=True` the call yields a list of chunks,
each with an optional delta content; for `stream=False` it yields a single
message content.  `.error msg` models the call raising an exception whose
message is `msg`. -/
structure OpenAIBehavior where
  createStream : String → String → Except String (List (Option String))
  createSingle : String → String → Except String String

/-- Models `SparkClient.llm` of `services/spark.py`: on success the
streamed chunks are joined (missing `content` keys contribute `""`) or the
single message content is returned; on any exception the handler returns
the string `"Error: "` followed by the exception message instead of
raising. -/
def SparkClient.llm (api : OpenAIBehavior) (prompt : String)
    (model_name : String := "gpt-4") (stream : Bool := false) : String :=
  if stream then
    match api.createStream model_name prompt with
    | .ok chunks =>
      String.join (chunks.map (fun c => c.getD ""))
    | .error e => "Error: " ++ e
  else
    match api.createSingle model_name prompt with
    | .ok content => content
    | .error e => "Error: " ++ e

example :
    SparkClient.llm
      { createStream := fun _ _ => .ok [some "a", none, some "b"],
        createSingle := fun _ _ => .error "boom" }
      "p" "gpt-4" true = "ab" := rfl

example :
    SparkClient.llm
      { createStream := fun _ _ => .ok [],
        createSingle := fun _ _ => .error "boom" }
      "p" "gpt-4" false = "Error: boom" := rfl

/-- Modelled from the spec: the slowapi limiter wired up in `main.py`
(`limiter = Limiter(key_func=get_remote_address)` plus per-route
`@limiter.limit("N/minute")` decorators) is a third-party dependency whose
implementation is not part of this repository.  Per §4.1 the admission
state for one (caller, route) pair is a window-start time and a request
count within that window. -/
structure RateLimitState where
  windowStart : Nat
  count : Nat
deriving DecidableEq, Repr

/-- Modelled from the spec: one admission decision
`admit(callerKey, routeLimit) → Allowed | Rejected(retryAfter)` for a route
limited to `limit` requests per `window` seconds, taken at time `now`.
Returns `(none, s')` for Allowed with updated state, and
`(some retryAfter, s)` for Rejected. -/
def rateStep (limit window now : Nat) (s : RateLimitState) :
    Option Nat × RateLimitState :=
  if s.windowStart + window ≤ now then (none, ⟨now, 1⟩)
  else if s.count < limit then (none, ⟨s.windowStart, s.count + 1⟩)
  else (some (s.windowStart + window - now), s)

/-- Admission decisions for a sequence of request times from one caller on
one route, threading the counter state; returns the outcomes (`none` =
allowed, `some r` = rejected with retry-after `r`) and the final state. -/
def runRequests (limit window : Nat) (s : RateLimitState) :
    List Nat → List (Option Nat) × RateLimitState
  | [] => ([], s)
  | t :: ts =>
    let (o, s') := rateStep limit window t s
    let (os, sf) := runRequests limit window s' ts
    (o :: os, sf)

/-- The caller-visible outcome of one guarded route invocation: success,
a handler error, or a rate-limit rejection carrying the retry-after hint
(a kind distinct by constructor from every handler error kind). -/
inductive RouteResponse (α : Type) where
  | ok (a : α)
  | err (e : HTTPError)
  | rateLimited (retryAfter : Nat)
deriving DecidableEq, Repr

/-- Modelled from the spec: the admission gate applied before the
`/recommend` handler body — a rejected request is answered from the gate
alone and the handler (and hence every collaborator) is never entered. -/
def dispatchRecommend (limit window now : Nat) (s : RateLimitState)
    (env : RecommendEnv) (query : MaterialQuery) :
    RouteResponse RecommendationResult × RateLimitState :=
  match rateStep limit window now s with
  | (some r, s') => (.rateLimited r, s')
  | (none, s') =>
    match recommend_materials env query with
    | .ok v => (.ok v, s')
    | .error e => (.err e, s')

/-- A candidate with its simulation annotation removed: two materials with
the same `stripSim` image differ at most in `simulated_properties`. -/
def stripSim (m : Material) : Material :=
  { m with simulated_properties := none }

/-- Concrete environment for C1: recommender returns two candidates, the
simulator raises for candidate "A" and succeeds for every other one. -/
def envC1 : RecommendEnv :=
  { process_query := fun q => .ok q,
    recommend := fun _ => .ok ⟨[⟨"A", [], none⟩, ⟨"B", [], none⟩]⟩,
    simulate_properties := fun m _ =>
      if m.id = "A" then .error "simulator down" else .ok [("density", 1)] }

/-- Concrete environment for C2: two candidates, simulation succeeds. -/
def envC2 : RecommendEnv :=
  { process_query := fun q => .ok q,
    recommend := fun _ => .ok ⟨[⟨"A", [("k", 2)], none⟩, ⟨"B", [], none⟩]⟩,
    simulate_properties := fun _ _ => .ok [("density", 3)] }

/-- Concrete analysis payload for C3. -/
def tradeoffA : TradeoffAnalysis := ⟨[("m1", "cost", 5)], ["m1"]⟩

/-- Concrete environment for C3: the simulator succeeds. -/
def envC3ok : TradeoffEnv := ⟨fun _ _ => .ok tradeoffA⟩

/-- Concrete environment for C3: the simulator raises. -/
def envC3err : TradeoffEnv := ⟨fun _ _ => .error "sim down"⟩

/-- Concrete environment for C4: the NLP processor raises while the
recommender and simulator are healthy. -/
def envC4 : RecommendEnv :=
  { process_query := fun _ => .error "nlp down",
    recommend := fun _ => .ok ⟨[⟨"A", [], none⟩]⟩,
    simulate_properties := fun _ _ => .ok [("density", 1)] }

/-- Concrete query for C4: free text plus caller-provided structured
requirement fields. -/
def qC4 : MaterialQuery := ⟨some "strong cheap steel", [("tensile_strength_min", 200)]⟩

/-- Concrete environment for C5: the recommender returns zero candidates. -/
def envC5 : RecommendEnv :=
  { process_query := fun q => .ok q,
    recommend := fun _ => .ok ⟨[]⟩,
    simulate_properties := fun _ _ => .ok [] }

/-- Concrete environment for C7: lookup completes with no material. -/
def envC7none : LookupEnv := ⟨fun _ => .ok none⟩

/-- Concrete environment for C7: the lookup itself raises. -/
def envC7err : LookupEnv := ⟨fun _ => .error "db down"⟩

/-- Concrete environments for C9: same stage fails with two different
exception messages. -/
def envC9rec1 : RecommendEnv :=
  ⟨fun q => .ok q, fun _ => .error "stack trace alpha", fun _ _ => .ok []⟩

/-- Second C9 recommender environment with a different exception message. -/
def envC9rec2 : RecommendEnv :=
  ⟨fun q => .ok q, fun _ => .error "credential detail beta", fun _ _ => .ok []⟩

/-- C9 trade-off environment, first exception message. -/
def envC9t1 : TradeoffEnv := ⟨fun _ _ => .error "boom one"⟩

/-- C9 trade-off environment, second exception message. -/
def envC9t2 : TradeoffEnv := ⟨fun _ _ => .error "boom two"⟩

/-- C9 lookup environment, first exception message. -/
def envC9l1 : LookupEnv := ⟨fun _ => .error "secret A"⟩

/-- C9 lookup environment, second exception message. -/
def envC9l2 : LookupEnv := ⟨fun _ => .error "secret B"⟩

/-- Concrete OpenAI behavior for C10: both call styles raise. -/
def apiC10err : OpenAIBehavior :=
  ⟨fun _ _ => .error "rate limit", fun _ _ => .error "bad key"⟩

/-- Concrete OpenAI behavior for C10: a successful completion whose text
happens to start with the error marker. -/
def apiC10ok : OpenAIBehavior :=
  ⟨fun _ _ => .ok [some "x"], fun _ _ => .ok "Error: bad key"⟩

theorem simulateAll_ok_stripSim (env : RecommendEnv) (req : List (String × Int)) :
    ∀ (ms ms' : List Material), simulateAll env req ms = .ok ms' →
      ms'.map stripSim = ms.map stripSim := by
  intro ms
  induction ms with
  | nil =>
    intro ms' h
    simp only [simulateAll] at h
    cases h
    rfl
  | cons m ms ih =>
    intro ms' h
    simp only [simulateAll] at h
    cases h1 : env.simulate_properties m req with
    | error e => rw [h1] at h; cases h
    | ok p =>
      rw [h1] at h
      cases h2 : simulateAll env req ms with
      | error e => rw [h2] at h; cases h
      | ok rest =>
        rw [h2] at h
        cases h
        simp only [List.map_cons]
        rw [ih rest h2]
        simp [stripSim]

theorem simulateAll_mem_fail (env : RecommendEnv) (req : List (String × Int))
    (m : Material) :
    ∀ (ms : List Material), m ∈ ms →
      (∀ p, env.simulate_properties m req ≠ .ok p) →
      ∀ r, simulateAll env req ms ≠ .ok r := by
  intro ms
  induction ms with
  | nil => intro hm; cases hm
  | cons a ms ih =>
    intro hm hf r h
    simp only [simulateAll] at h
    cases hm with
    | head =>
      cases h1 : env.simulate_properties m req with
      | error e => rw [h1] at h; cases h
      | ok p => exact hf p h1
    | tail _ hm' =>
      cases h1 : env.simulate_properties a req with
      | error e => rw [h1] at h; cases h
      | ok p =>
        rw [h1] at h
        cases h2 : simulateAll env req ms with
        | error e => rw [h2] at h; cases h
        | ok rest => exact ih hm' hf rest h2

theorem recommendStep_eq (env : RecommendEnv) (q q' : MaterialQuery)
    (recs : RecommendationResult)
    (henh : enhanceStage env q = .ok q')
    (hrec : env.recommend q' = .ok recs) :
    recommendStep env q =
      match simulateAll env q'.requirements recs.materials with
      | .error e => .error e
      | .ok mats => .ok { recs with materials := mats } := by
  simp only [recommendStep, henh, hrec]

/-- C1: the claim states that a simulation failure for one of k candidates
is isolated and the response still succeeds with all k candidates, the
failing one degraded.  This is false on the code: with two candidates and
the simulator raising for candidate "A", `recommend_materials` answers
HTTP 500 and no success response exists. -/
theorem C1_counterexample :
    recommend_materials envC1 ⟨none, []⟩ =
      .error (.httpException 500 "Recommendation service temporarily unavailable") ∧
    ∀ r, recommend_materials envC1 ⟨none, []⟩ ≠ .ok r := by
  have h0 : recommend_materials envC1 ⟨none, []⟩ =
      .error (.httpException 500 "Recommendation service temporarily unavailable") := rfl
  exact ⟨h0, fun r h => Except.noConfusion (h0.symm.trans h)⟩

/-- C1 (amended): a simulation failure for any one candidate fails the
whole request — whenever enhancement and recommendation succeed and the
simulator raises for some returned candidate, the handler answers the
generic 500 "Recommendation service temporarily unavailable" error; no
per-candidate degradation marker exists. -/
theorem C1_amended_sim_failure_fails_request (env : RecommendEnv)
    (q q' : MaterialQuery) (recs : RecommendationResult) (m : Material)
    (henh : enhanceStage env q = .ok q')
    (hrec : env.recommend q' = .ok recs)
    (hm : m ∈ recs.materials)
    (hf : ∀ p, env.simulate_properties m q'.requirements ≠ .ok p) :
    recommend_materials env q =
      .error (.httpException 500 "Recommendation service temporarily unavailable") := by
  have hstep := recommendStep_eq env q q' recs henh hrec
  have hfail := simulateAll_mem_fail env q'.requirements m recs.materials hm hf
  unfold recommend_materials
  rw [hstep]
  cases h2 : simulateAll env q'.requirements recs.materials with
  | error e => rfl
  | ok rest => exact absurd h2 (hfail rest)

/-- C1 (amended) witness: the amended theorem applied to the concrete
two-candidate environment in which candidate "A" fails to simulate. -/
theorem C1_amended_witness :
    recommend_materials envC1 ⟨none, []⟩ =
      .error (.httpException 500 "Recommendation service temporarily unavailable") :=
  C1_amended_sim_failure_fails_request envC1 ⟨none, []⟩ ⟨none, []⟩
    ⟨[⟨"A", [], none⟩, ⟨"B", [], none⟩]⟩ ⟨"A", [], none⟩ rfl rfl
    (by simp) (fun p h => by simp [envC1] at h)

/-- C2: for every accepted /recommend request, the response candidates
equal the Recommender stage output in order and membership — simulation
only attaches annotations: stripping the `simulated_properties` field from
the response candidates recovers exactly the recommender candidate list,
and in particular the id sequences coincide. -/
theorem C2_simulation_only_annotates (env : RecommendEnv)
    (q q' : MaterialQuery) (recs res : RecommendationResult)
    (henh : enhanceStage env q = .ok q')
    (hrec : env.recommend q' = .ok recs)
    (hres : recommend_materials env q = .ok res) :
    res.materials.map stripSim = recs.materials.map stripSim ∧
    res.materials.map Material.id = recs.materials.map Material.id := by
  have hstep := recommendStep_eq env q q' recs henh hrec
  unfold recommend_materials at hres
  rw [hstep] at hres
  cases h2 : simulateAll env q'.requirements recs.materials with
  | error e => rw [h2] at hres; cases hres
  | ok mats =>
    rw [h2] at hres
    cases hres
    have hs := simulateAll_ok_stripSim env q'.requirements recs.materials mats h2
    refine ⟨hs, ?_⟩
    have h3 := congrArg (List.map Material.id) hs
    simpa [List.map_map, Function.comp, stripSim] using h3

/-- C2 witness: the order/membership theorem applied to a concrete
two-candidate run in which simulation succeeds for both. -/
theorem C2_witness :
    (RecommendationResult.mk
        [⟨"A", [("k", 2)], some [("density", 3)]⟩,
         ⟨"B", [], some [("density", 3)]⟩]).materials.map stripSim =
      (RecommendationResult.mk
        [⟨"A", [("k", 2)], none⟩, ⟨"B", [], none⟩]).materials.map stripSim ∧
    (RecommendationResult.mk
        [⟨"A", [("k", 2)], some [("density", 3)]⟩,
         ⟨"B", [], some [("density", 3)]⟩]).materials.map Material.id =
      (RecommendationResult.mk
        [⟨"A", [("k", 2)], none⟩, ⟨"B", [], none⟩]).materials.map Material.id :=
  C2_simulation_only_annotates envC2 ⟨none, []⟩ ⟨none, []⟩
    ⟨[⟨"A", [("k", 2)], none⟩, ⟨"B", [], none⟩]⟩
    ⟨[⟨"A", [("k", 2)], some [("density", 3)]⟩, ⟨"B", [], some [("density", 3)]⟩]⟩
    rfl rfl rfl

/-- C3: the claim states that a /tradeoff request with fewer than 2
material ids is rejected with an InvalidInput-kind error before any
collaborator call.  This is false on the code: with a single material id
the handler succeeds when the simulator succeeds, and answers the generic
500 error when the simulator raises — so the request is not rejected and
the simulator is invoked (the response tracks its outcome). -/
theorem C3_counterexample :
    analyze_tradeoffs envC3ok ["m1"] ["cost"] = .ok tradeoffA ∧
    analyze_tradeoffs envC3err ["m1"] ["cost"] =
      .error (.httpException 500 "Trade-off analysis service temporarily unavailable") :=
  ⟨rfl, rfl⟩

/-- C3 (amended): the handler performs no arity validation — for every
request with fewer than 2 material ids the list is delegated to the
PropertySimulator unchanged, a successful comparison is returned as-is,
and a simulator exception yields the generic 500 error; no InvalidInput
rejection exists. -/
theorem C3_amended_no_arity_validation (env : TradeoffEnv)
    (material_ids criteria : List String)
    (_h : material_ids.length < 2) :
    (∀ a, env.analyze_tradeoffs material_ids criteria = .ok a →
      analyze_tradeoffs env material_ids criteria = .ok a) ∧
    (∀ e, env.analyze_tradeoffs material_ids criteria = .error e →
      analyze_tradeoffs env material_ids criteria =
        .error (.httpException 500 "Trade-off analysis service temporarily unavailable")) := by
  constructor
  · intro a ha
    unfold analyze_tradeoffs
    rw [ha]
  · intro e he
    unfold analyze_tradeoffs
    rw [he]

/-- C3 (amended) witness: the amended theorem applied to the concrete
one-id request with a healthy simulator. -/
theorem C3_amended_witness :
    analyze_tradeoffs envC3ok ["m1"] ["cost"] = .ok tradeoffA :=
  (C3_amended_no_arity_validation envC3ok ["m1"] ["cost"] (by decide)).1 tradeoffA rfl

/-- C4: the claim states that an enhancement failure still lets the
pipeline proceed on the original structured fields when any are present.
This is false on the code: with structured requirements present, a healthy
recommender and simulator, and the NLP processor raising, the handler
answers the generic HTTP 500 and no success response exists. -/
theorem C4_counterexample :
    recommend_materials envC4 qC4 =
      .error (.httpException 500 "Recommendation service temporarily unavailable") ∧
    ∀ r, recommend_materials envC4 qC4 ≠ .ok r := by
  have h0 : recommend_materials envC4 qC4 =
      .error (.httpException 500 "Recommendation service temporarily unavailable") := rfl
  exact ⟨h0, fun r h => Except.noConfusion (h0.symm.trans h)⟩

/-- C4 (amended): whenever the query carries truthy free text and the
enhancement stage raises, the request fails with the generic 500
"Recommendation service temporarily unavailable" error, regardless of
whether structured requirement fields are present; no unprocessable-query
kind and no structured-field fallback exist. -/
theorem C4_amended_enhancement_failure_fails_request (env : RecommendEnv)
    (q : MaterialQuery) (e : String)
    (hnl : pyTruthyStr q.natural_language_query = true)
    (henh : env.process_query q = .error e) :
    recommend_materials env q =
      .error (.httpException 500 "Recommendation service temporarily unavailable") := by
  unfold recommend_materials recommendStep enhanceStage
  rw [hnl]
  simp [henh]

/-- C4 (amended) witness: the amended theorem applied to the concrete
query with structured fields and a failing NLP processor. -/
theorem C4_amended_witness :
    recommend_materials envC4 qC4 =
      .error (.httpException 500 "Recommendation service temporarily unavailable") :=
  C4_amended_enhancement_failure_fails_request envC4 qC4 "nlp down" (by decide) rfl

/-- C5: a /recommend request for which the Recommender stage returns an
empty candidate list completes successfully with a zero-candidate
RecommendationResult and no error. -/
theorem C5_empty_result_is_success (env : RecommendEnv)
    (q q' : MaterialQuery)
    (henh : enhanceStage env q = .ok q')
    (hrec : env.recommend q' = .ok ⟨[]⟩) :
    recommend_materials env q = .ok ⟨[]⟩ := by
  have hstep := recommendStep_eq env q q' ⟨[]⟩ henh hrec
  unfold recommend_materials
  rw [hstep]
  rfl

/-- C5 witness: the empty-result theorem applied to a concrete environment
whose recommender returns zero candidates. -/
theorem C5_witness :
    recommend_materials envC5 ⟨none, [("x", 1)]⟩ = .ok ⟨[]⟩ :=
  C5_empty_result_is_success envC5 ⟨none, [("x", 1)]⟩ ⟨none, [("x", 1)]⟩ rfl rfl

/-- C6: every accepted /plan_rl request enqueues the planning job exactly
once (the background queue grows by exactly the one task holding the
planner and its arguments), immediately returns the fixed acceptance body,
and the response is independent of the planner — the handler never
observes the job running or completing. -/
theorem C6_plan_enqueues_once_and_returns {Planner : Type}
    (rl_planner : Planner) (objectives : List String)
    (constraints : List (String × String))
    (background_tasks : List (PlanTask Planner)) :
    (plan_with_rl rl_planner objectives constraints background_tasks).1 =
      background_tasks ++ [⟨rl_planner, objectives, constraints⟩] ∧
    (plan_with_rl rl_planner objectives constraints background_tasks).2 =
      .ok ⟨"initiated", "RL planning started in background", "2-5 minutes"⟩ ∧
    ∀ (Q : Type) (p' : Q) (bg' : List (PlanTask Q)),
      (plan_with_rl p' objectives constraints bg').2 =
        (plan_with_rl rl_planner objectives constraints background_tasks).2 :=
  ⟨rfl, rfl, fun _ _ _ => rfl⟩

/-- C7: a /materials/{id} lookup that completes with no material yields
the 404 "Material not found" error, a lookup that raises yields the 500
"Material retrieval service temporarily unavailable" error, and the two
error values are distinct — the NotFound outcome is never converted into
the generic unavailability one. -/
theorem C7_notfound_distinct_from_unavailable (env : LookupEnv)
    (material_id : String) :
    (env.get_material_by_id material_id = .ok none →
      get_material_details env material_id =
        .error (.httpException 404 "Material not found")) ∧
    (∀ e, env.get_material_by_id material_id = .error e →
      get_material_details env material_id =
        .error (.httpException 500 "Material retrieval service temporarily unavailable")) ∧
    HTTPError.httpException 404 "Material not found" ≠
      HTTPError.httpException 500 "Material retrieval service temporarily unavailable" := by
  refine ⟨?_, ?_, by decide⟩
  · intro h
    unfold get_material_details
    rw [h]
  · intro e h
    unfold get_material_details
    rw [h]

/-- C7 witness: the distinction theorem applied to a concrete lookup that
finds nothing and a concrete lookup that raises. -/
theorem C7_witness :
    get_material_details envC7none "m1" =
      .error (.httpException 404 "Material not found") ∧
    get_material_details envC7err "m1" =
      .error (.httpException 500 "Material retrieval service temporarily unavailable") :=
  ⟨(C7_notfound_distinct_from_unavailable envC7none "m1").1 rfl,
   (C7_notfound_distinct_from_unavailable envC7err "m1").2.1 "db down" rfl⟩

theorem runRequests_in_window (limit window t : Nat) (hw : 0 < window) :
    ∀ (k c : Nat), c + k ≤ limit →
      runRequests limit window ⟨t, c⟩ (List.replicate k t) =
        (List.replicate k none, ⟨t, c + k⟩) := by
  intro k
  induction k with
  | zero =>
    intro c hc
    simp [runRequests]
  | succ k ih =>
    intro c hc
    have hnot : ¬ (t + window ≤ t) := by omega
    have hlt : c < limit := by omega
    have hstep : rateStep limit window t ⟨t, c⟩ = (none, ⟨t, c + 1⟩) := by
      simp [rateStep, hnot, hlt]
    rw [List.replicate_succ]
    simp only [runRequests, hstep]
    rw [ih (c + 1) (by omega)]
    have hc1 : c + 1 + k = c + (k + 1) := by omega
    rw [hc1]
    simp [List.replicate_succ]

/-- C8: for a route limited to N requests per window, a fresh caller gets
N admissions within one window (modelled from the spec, §4.1), the (N+1)th
request in that window is rejected carrying the positive retry-after hint,
a request after the window rolls over is admitted again, a rejected
request is answered from the admission gate alone — its response is the
rate-limited kind and is independent of every collaborator, so no
downstream stage runs — and the rate-limited kind is distinct by
constructor from both handler-error and success outcomes. -/
theorem C8_rate_admission_behavior (N window t : Nat)
    (_hN : 0 < N) (hw : 0 < window) :
    runRequests N window ⟨t, 0⟩ (List.replicate N t) =
      (List.replicate N none, ⟨t, N⟩) ∧
    rateStep N window t ⟨t, N⟩ = (some window, ⟨t, N⟩) ∧
    rateStep N window (t + window) ⟨t, N⟩ = (none, ⟨t + window, 1⟩) ∧
    (∀ (env₁ env₂ : RecommendEnv) (q₁ q₂ : MaterialQuery),
      (dispatchRecommend N window t ⟨t, N⟩ env₁ q₁).1 = .rateLimited window ∧
      (dispatchRecommend N window t ⟨t, N⟩ env₁ q₁).1 =
        (dispatchRecommend N window t ⟨t, N⟩ env₂ q₂).1) ∧
    (∀ (r : Nat) (e : HTTPError) (v : RecommendationResult),
      (RouteResponse.rateLimited r : RouteResponse RecommendationResult) ≠ .err e ∧
      (RouteResponse.rateLimited r : RouteResponse RecommendationResult) ≠ .ok v) := by
  have h1 := runRequests_in_window N window t hw N 0 (by omega)
  have hnot : ¬ (t + window ≤ t) := by omega
  have hnot2 : ¬ (N < N) := by omega
  have hrej : rateStep N window t ⟨t, N⟩ = (some window, ⟨t, N⟩) := by
    simp [rateStep, hnot, hnot2, Nat.add_sub_cancel_left]
  refine ⟨by simpa using h1, hrej, by simp [rateStep], ?_, ?_⟩
  · intro env₁ env₂ q₁ q₂
    exact ⟨by simp [dispatchRecommend, hrej], by simp [dispatchRecommend, hrej]⟩
  · intro r e v
    exact ⟨fun h => RouteResponse.noConfusion h, fun h => RouteResponse.noConfusion h⟩

/-- C8 witness: the admission theorem applied to a concrete 2-per-60
route — two requests at time 0 admitted, the third rejected with
retry-after 60, and a request at time 60 admitted again. -/
theorem C8_witness :
    runRequests 2 60 ⟨0, 0⟩ (List.replicate 2 0) =
      (List.replicate 2 none, ⟨0, 2⟩) ∧
    rateStep 2 60 0 ⟨0, 2⟩ = (some 60, ⟨0, 2⟩) ∧
    rateStep 2 60 60 ⟨0, 2⟩ = (none, ⟨60, 1⟩) :=
  ⟨(C8_rate_admission_behavior 2 60 0 (by decide) (by decide)).1,
   (C8_rate_admission_behavior 2 60 0 (by decide) (by decide)).2.1,
   (C8_rate_admission_behavior 2 60 0 (by decide) (by decide)).2.2.1⟩

/-- C9: the human-readable detail of a failure response is a fixed string
determined only by the failing stage and never derived from the
collaborator exception — two runs of the same handler whose collaborators
raise different exceptions produce identical error responses, for the
/recommend, /tradeoff and /materials/{id} handlers. -/
theorem C9_failure_responses_leak_nothing :
    (∀ (env₁ env₂ : RecommendEnv) (q₁ q₂ : MaterialQuery) (e₁ e₂ : String),
      recommendStep env₁ q₁ = .error e₁ → recommendStep env₂ q₂ = .error e₂ →
      recommend_materials env₁ q₁ = recommend_materials env₂ q₂) ∧
    (∀ (env₁ env₂ : TradeoffEnv) (ids₁ ids₂ cr₁ cr₂ : List String)
       (e₁ e₂ : String),
      env₁.analyze_tradeoffs ids₁ cr₁ = .error e₁ →
      env₂.analyze_tradeoffs ids₂ cr₂ = .error e₂ →
      analyze_tradeoffs env₁ ids₁ cr₁ = analyze_tradeoffs env₂ ids₂ cr₂) ∧
    (∀ (env₁ env₂ : LookupEnv) (id₁ id₂ : String) (e₁ e₂ : String),
      env₁.get_material_by_id id₁ = .error e₁ →
      env₂.get_material_by_id id₂ = .error e₂ →
      get_material_details env₁ id₁ = get_material_details env₂ id₂) := by
  refine ⟨?_, ?_, ?_⟩
  · intro env₁ env₂ q₁ q₂ e₁ e₂ h1 h2
    unfold recommend_materials
    rw [h1, h2]
  · intro env₁ env₂ ids₁ ids₂ cr₁ cr₂ e₁ e₂ h1 h2
    unfold analyze_tradeoffs
    rw [h1, h2]
  · intro env₁ env₂ id₁ id₂ e₁ e₂ h1 h2
    unfold get_material_details
    rw [h1, h2]

/-- C9 witness: the leak-freedom theorem applied to concrete collaborator
failures with visibly different exception messages (a stack-trace-like one
versus a credential-like one), giving identical responses. -/
theorem C9_witness :
    recommend_materials envC9rec1 ⟨none, []⟩ =
      recommend_materials envC9rec2 ⟨none, []⟩ ∧
    analyze_tradeoffs envC9t1 ["a"] ["b"] =
      analyze_tradeoffs envC9t2 ["a", "b"] ["c"] ∧
    get_material_details envC9l1 "m" = get_material_details envC9l2 "n" :=
  ⟨C9_failure_responses_leak_nothing.1 envC9rec1 envC9rec2 ⟨none, []⟩ ⟨none, []⟩
      "stack trace alpha" "credential detail beta" rfl rfl,
   C9_failure_responses_leak_nothing.2.1 envC9t1 envC9t2 ["a"] ["a", "b"]
      ["b"] ["c"] "boom one" "boom two" rfl rfl,
   C9_failure_responses_leak_nothing.2.2 envC9l1 envC9l2 "m" "n"
      "secret A" "secret B" rfl rfl⟩

/-- C10: SparkClient.llm never propagates a collaborator exception — when
the underlying OpenAI call raises, llm returns the string "Error: "
followed by the exception message (in both stream modes), and a failed
call is indistinguishable from a successful completion whose text is that
same string. -/
theorem C10_llm_returns_error_string (api : OpenAIBehavior)
    (prompt model_name : String) :
    (∀ e, api.createSingle model_name prompt = .error e →
      SparkClient.llm api prompt model_name false = "Error: " ++ e) ∧
    (∀ e, api.createStream model_name prompt = .error e →
      SparkClient.llm api prompt model_name true = "Error: " ++ e) ∧
    (∀ (e : String) (api' : OpenAIBehavior),
      api.createSingle model_name prompt = .error e →
      api'.createSingle model_name prompt = .ok ("Error: " ++ e) →
      SparkClient.llm api prompt model_name false =
        SparkClient.llm api' prompt model_name false) := by
  refine ⟨?_, ?_, ?_⟩
  · intro e h
    simp [SparkClient.llm, h]
  · intro e h
    simp [SparkClient.llm, h]
  · intro e api' h h'
    simp [SparkClient.llm, h, h']

/-- C10 witness: the error-string theorem applied to a concrete failing
API and a concrete succeeding API whose completion text coincides with the
failure marker string. -/
theorem C10_witness :
    SparkClient.llm apiC10err "p" "gpt-4" false = "Error: bad key" ∧
    SparkClient.llm apiC10err "p" "gpt-4" true = "Error: rate limit" ∧
    SparkClient.llm apiC10err "p" "gpt-4" false =
      SparkClient.llm apiC10ok "p" "gpt-4" false :=
  ⟨(C10_llm_returns_error_string apiC10err "p" "gpt-4").1 "bad key" rfl,
   (C10_llm_returns_error_string apiC10err "p" "gpt-4").2.1 "rate limit" rfl,
   (C10_llm_returns_error_string apiC10err "p" "gpt-4").2.2 "bad key" apiC10ok rfl rfl⟩
